import Mathlib

/-!
Shallow embedding of `src/cli.py`, a single-file CLI tool that scrapes
predefined HTML sources and local PDF files into JSON records.

The external libraries (`requests`, `BeautifulSoup`, `pdfminer`,
`urllib`'s `urljoin`, the filesystem) are modelled as capability
interfaces: record-of-functions environments whose fields return exactly
the query results the Python code asks them for.  Everything written in
`cli.py` itself (the scraper classes, the inherited `run` generator, the
record dict literals, the `scrape_all` orchestration loop) is translated
definition-by-definition.

Conventions:
* a Python exception propagating out of a call is an `Except.error`
  carrying the message; an uncaught exception aborts a generator run, so
  a run's result is the list of records yielded before the first error,
  paired with `Option`ally that error;
* `uuid.uuid4()` is modelled as an ambient stream `ids : Nat → String`
  of fresh identifiers together with a counter giving the next unused
  position; each successful `extract_content` consumes one identifier;
* a Python dict serialized by `json.dumps` is an association list
  `List (String × JVal)` in insertion order, so a key that the code
  never inserts is genuinely missing, and `None` is `JVal.null`;
* `typer.echo` writes both progress markers and serialized records to
  standard output; the output stream is a `List OutLine` mixing the two.
-/

/-- A JSON value as produced by `json.dumps` on the record dicts:
either `null` (Python `None`) or a string.  (The record dicts in
`cli.py` only ever hold strings and `None`.) -/
inductive JVal where
  | null : JVal
  | str : String → JVal
deriving DecidableEq, Repr

/-- Serialization of an optional string: Python `None` becomes `null`. -/
def optJ : Option String → JVal
  | none => JVal.null
  | some s => JVal.str s

/-- A record dict in insertion order, as `json.dumps` sees it:
keys present in the dict appear, keys never inserted are absent. -/
abbrev Record := List (String × JVal)

/-- The keys of a record dict. -/
def Record.keys (r : Record) : List String := r.map Prod.fst

/-- Lookup `r[k]`: the value stored under key `k`, if the key is present. -/
def Record.get (r : Record) (k : String) : Option JVal :=
  (List.lookup k r)

/-- An HTML element as seen through BeautifulSoup: its attributes
(`a.get("href")`, `tag["datetime"]`, `tag.has_attr(...)`) and its
whitespace-stripped text (`get_text(strip=True)`). -/
structure Elem where
  attrs : List (String × String)
  text : String
deriving DecidableEq, Repr

/-- BeautifulSoup `tag.get(name)` (also `tag.has_attr(name)` plus
`tag[name]`): the attribute value when the attribute is present. -/
def Elem.attr (e : Elem) (name : String) : Option String :=
  List.lookup name e.attrs

/-- A parsed page (`BeautifulSoup(html, "html.parser")`) through the
exact query interface `cli.py` uses:
* `find s` — the first element with tag name `s`, if any
  (`soup.find("h1")`, `soup.find("time")`);
* `select s` — all elements matching CSS selector `s`, in document
  order (`soup.select(...)`);
* `select_one s` — the first element matching CSS selector `s`
  (`soup.select_one(".author")`). -/
structure Soup where
  find : String → Option Elem
  select : String → List Elem
  select_one : String → Option Elem

/-- The ambient libraries an `HtmlScraper` calls: `requests.get` +
`raise_for_status` + `.text` collapsed into one fallible fetch,
`BeautifulSoup` as a parser from page text to a `Soup`, and
`requests.compat.urljoin`. -/
structure Web where
  fetch : String → Except String String
  parse : String → Soup
  urljoin : String → String → String

/-- The ambient libraries a `PDFScraper` calls: `open(path, "rb").read()`
as a fallible read of the raw bytes (modelled opaquely as a string), and
`pdfminer.high_level.extract_text` applied to the *path* (as the code
does), fallible on malformed PDFs. -/
structure PdfLib where
  read : String → Except String String
  extract_text : String → Except String String

/-- Is `p` a prefix of `s`, character by character?  (Python
`str.startswith`, restated as structural recursion on the character
lists.) -/
def pfxChars : List Char → List Char → Bool
  | [], _ => true
  | _ :: _, [] => false
  | p :: ps, c :: cs => decide (p = c) && pfxChars ps cs

/-- Python `s.startswith(p)`. -/
def strStartsWith (s p : String) : Bool := pfxChars p.data s.data

/-- Python `s.endswith(p)`. -/
def strEndsWith (s p : String) : Bool := pfxChars p.data.reverse s.data.reverse

/-- Python `str.lower` on one ASCII character (the file names the code
lowercases are ASCII; non-ASCII characters pass through). -/
def lowerChar (c : Char) : Char :=
  if 'A' ≤ c ∧ c ≤ 'Z' then Char.ofNat (c.toNat + 32) else c

/-- Python `s.lower()`. -/
def strLower (s : String) : String := ⟨s.data.map lowerChar⟩

/-- Code-point lexicographic order on strings, as Python's `<=` used by
`sorted`. -/
def lexLeChars : List Char → List Char → Bool
  | [], _ => true
  | _ :: _, [] => false
  | a :: as, b :: bs => if a = b then lexLeChars as bs else decide (a < b)

/-- Insert into a lexicographically sorted list of strings. -/
def insertStr (x : String) : List String → List String
  | [] => [x]
  | y :: ys => if lexLeChars x.data y.data then x :: y :: ys
               else y :: insertStr x ys

/-- Python `sorted` on a list of strings (insertion sort; the order is
what matters, not the algorithm). -/
def sortStrs : List String → List String
  | [] => []
  | x :: xs => insertStr x (sortStrs xs)

/-- Python `os.path.basename` for POSIX paths: the part after the last `/`
(empty when the path ends in `/`). -/
def basename (p : String) : String :=
  ⟨p.data.foldl (fun acc c => if c = '/' then [] else acc ++ [c]) []⟩

/-- Constructor arguments of `HtmlScraper.__init__`. -/
structure HtmlScraper where
  start_url : String
  list_selector : String
  link_selector : String
deriving DecidableEq, Repr

namespace HtmlScraper

/-- Method `HtmlScraper.list_pages`: always the single start page. -/
def list_pages (sc : HtmlScraper) : List String := [sc.start_url]

/-- The body of the `parse_items` loop, abstracted over the list of
anchors returned by `soup.select(f"{list_sel} {link_sel}")`: keep each
anchor whose `href` is truthy (present and non-empty), passing it
through verbatim when it starts with `"http"` and resolving it against
`start_url` with `urljoin` otherwise. -/
def parseAnchors (w : Web) (sc : HtmlScraper) (anchors : List Elem) : List String :=
  anchors.filterMap fun a =>
    match a.attr "href" with
    | none => none
    | some href =>
        if href = "" then none
        else some (if strStartsWith href "http" then href
                   else w.urljoin sc.start_url href)

/-- Method `HtmlScraper.parse_items`: select `f"{list_selector} {link_selector}"`
on the parsed listing page and collect the resolved hrefs. -/
def parse_items (w : Web) (sc : HtmlScraper) (page_content : String) : List String :=
  parseAnchors w sc
    ((w.parse page_content).select (sc.list_selector ++ " " ++ sc.link_selector))

/-- The record dict literal built at the end of
`HtmlScraper.extract_content`, given the freshly minted id and the
parsed item page. -/
def buildRecord (sc : HtmlScraper) (idv : String) (item_url : String)
    (soup : Soup) : Record :=
  let title := (soup.find "h1").map Elem.text
  let date := (soup.find "time").bind fun t => t.attr "datetime"
  let author := (soup.select_one ".author").map Elem.text
  let paragraphs :=
    (soup.select "article p, .post-content p, .content p").map Elem.text
  let content := String.intercalate "\n\n" paragraphs
  [("id", JVal.str idv),
   ("source", JVal.str sc.start_url),
   ("url", JVal.str item_url),
   ("title", optJ title),
   ("author", optJ author),
   ("date", optJ date),
   ("content", JVal.str content)]

/-- Method `HtmlScraper.extract_content`: fetch the item page (`fetch_page`,
which raises on network errors and non-2xx statuses), parse it, and
build the record; the error of a failed fetch propagates. -/
def extract_content (w : Web) (sc : HtmlScraper) (idv : String)
    (item_url : String) : Except String Record :=
  (w.fetch item_url).map fun html => buildRecord sc idv item_url (w.parse html)

/-- The inner loop of `BaseScraper.run` for an `HtmlScraper`:
`for item in self.parse_items(content): yield self.extract_content(item)`.
Each successful extraction consumes one fresh id; the first exception
stops the generator, so the result is the prefix of records yielded
before it, with the error. -/
def runItems (w : Web) (sc : HtmlScraper) (ids : Nat → String) :
    Nat → List String → List Record × Option String
  | _, [] => ([], none)
  | n, item :: rest =>
    match extract_content w sc (ids n) item with
    | Except.error e => ([], some e)
    | Except.ok r =>
        (r :: (runItems w sc ids (n + 1) rest).1,
         (runItems w sc ids (n + 1) rest).2)

/-- Inherited `BaseScraper.run` for an `HtmlScraper`: for each page in
`list_pages` (the single start page), fetch it — a fetch failure
propagates — then yield one record per parsed item. -/
def runPages (w : Web) (sc : HtmlScraper) (ids : Nat → String) :
    Nat → List String → List Record × Option String
  | _, [] => ([], none)
  | n, page :: pages =>
    match w.fetch page with
    | Except.error e => ([], some e)
    | Except.ok content =>
        let rs := (runItems w sc ids n (parse_items w sc content)).1
        match (runItems w sc ids n (parse_items w sc content)).2 with
        | some e => (rs, some e)
        | none =>
            (rs ++ (runPages w sc ids (n + rs.length) pages).1,
             (runPages w sc ids (n + rs.length) pages).2)

/-- Generator `HtmlScraper(...).run()`, exhausted into the list of records it
yields before its first uncaught exception (if any). -/
def run (w : Web) (sc : HtmlScraper) (ids : Nat → String) (n : Nat) :
    List Record × Option String :=
  runPages w sc ids n (list_pages sc)

end HtmlScraper

namespace PDFScraper

/-- Method `PDFScraper.list_pages`: the single target file. -/
def list_pages (pdf_path : String) : List String := [pdf_path]

/-- Method `PDFScraper.parse_items`: the path is its own single item locator;
the fetched bytes are ignored. -/
def parse_items (pdf_path : String) (_page_content : String) : List String :=
  [pdf_path]

/-- The record dict literal of `PDFScraper.extract_content`: only the
keys `id`, `source`, `content` are ever inserted. -/
def buildRecord (idv : String) (item : String) (text : String) : Record :=
  [("id", JVal.str idv),
   ("source", JVal.str (basename item)),
   ("content", JVal.str text)]

/-- Method `PDFScraper.extract_content`: run `extract_text` on the item (the
path itself) and build the three-key record; a `pdfminer` failure
propagates. -/
def extract_content (lib : PdfLib) (idv : String) (item : String) :
    Except String Record :=
  (lib.extract_text item).map fun text => buildRecord idv item text

/-- The inner loop of `BaseScraper.run` for a `PDFScraper`. -/
def runItems (lib : PdfLib) (ids : Nat → String) :
    Nat → List String → List Record × Option String
  | _, [] => ([], none)
  | n, item :: rest =>
    match extract_content lib (ids n) item with
    | Except.error e => ([], some e)
    | Except.ok r =>
        (r :: (runItems lib ids (n + 1) rest).1,
         (runItems lib ids (n + 1) rest).2)

/-- Inherited `BaseScraper.run` for a `PDFScraper`: `fetch_page` opens and reads
the file (raising on a missing or unreadable file), then each parsed
item (the path itself) is extracted. -/
def runPages (lib : PdfLib) (pdf_path : String) (ids : Nat → String) :
    Nat → List String → List Record × Option String
  | _, [] => ([], none)
  | n, page :: pages =>
    match lib.read page with
    | Except.error e => ([], some e)
    | Except.ok content =>
        let rs := (runItems lib ids n (parse_items pdf_path content)).1
        match (runItems lib ids n (parse_items pdf_path content)).2 with
        | some e => (rs, some e)
        | none =>
            (rs ++ (runPages lib pdf_path ids (n + rs.length) pages).1,
             (runPages lib pdf_path ids (n + rs.length) pages).2)

/-- Generator `PDFScraper(path).run()`, exhausted into the records it yields
before its first uncaught exception (if any). -/
def run (lib : PdfLib) (pdf_path : String) (ids : Nat → String) (n : Nat) :
    List Record × Option String :=
  runPages lib pdf_path ids n (list_pages pdf_path)

end PDFScraper

/-- One entry of the hardcoded `PREDEFINED_SOURCES` list. -/
structure Source where
  name : String
  start_url : String
  list_sel : String
  link_sel : String
deriving DecidableEq, Repr

/-- The `HtmlScraper(...)` constructed from a catalog entry by
`scrape_all`. -/
def Source.scraper (s : Source) : HtmlScraper :=
  { start_url := s.start_url, list_selector := s.list_sel,
    link_selector := s.link_sel }

/-- The hardcoded source catalog `PREDEFINED_SOURCES`. -/
def PREDEFINED_SOURCES : List Source :=
  [{ name := "interviewing_blog",
     start_url := "https://interviewing.io/blog",
     list_sel := "h1", link_sel := "a" },
   { name := "company_guides",
     start_url := "https://interviewing.io/topics#companies",
     list_sel := ".markdown-content",
     link_sel := "a[href*='/topics/']" },
   { name := "interview_guides",
     start_url := "https://interviewing.io/learn#interview-guides",
     list_sel := ".markdown-content",
     link_sel := "a[href*='/learn/']" },
   { name := "nil_dsablog",
     start_url := "https://nilmamano.com/blog/category/dsa",
     list_sel := "article", link_sel := "a" }]

/-- The hardcoded `PDF_FOLDER`. -/
def PDF_FOLDER : String := "data/pdfs"

/-- One line written to standard output by `typer.echo`: either a plain
diagnostic/progress line, or a serialized record (`json.dumps(rec)`). -/
inductive OutLine where
  | marker : String → OutLine
  | record : Record → OutLine
deriving DecidableEq, Repr

/-- Whether an output line is a serialized record. -/
def OutLine.isRecord : OutLine → Bool
  | OutLine.marker _ => false
  | OutLine.record _ => true

/-- The progress line `f"--- SCRAPING {src['name']} ({src['start_url']}) ---"`. -/
def srcMarker (s : Source) : String :=
  "--- SCRAPING " ++ s.name ++ " (" ++ s.start_url ++ ") ---"

/-- The HTML half of `scrape_all`: for each catalog entry in order,
echo its progress marker, construct its scraper and echo every record
the run yields; an exception from a run propagates and aborts the whole
command.  Returns the output lines, the propagated error if any, and
the number of fresh ids consumed so far. -/
def scrapeSources (w : Web) (ids : Nat → String) :
    Nat → List Source → List OutLine × Option String × Nat
  | n, [] => ([], none, n)
  | n, s :: ss =>
    let recs := (HtmlScraper.run w s.scraper ids n).1
    let here := OutLine.marker (srcMarker s) :: recs.map OutLine.record
    match (HtmlScraper.run w s.scraper ids n).2 with
    | some e => (here, some e, n + recs.length)
    | none =>
        (here ++ (scrapeSources w ids (n + recs.length) ss).1,
         (scrapeSources w ids (n + recs.length) ss).2.1,
         (scrapeSources w ids (n + recs.length) ss).2.2)

/-- The PDF half of `scrape_all`: for each file name of the (sorted)
directory listing whose lowercased name ends in `".pdf"`, echo the
progress marker and every record of a `PDFScraper` run on
`os.path.join(PDF_FOLDER, fname)`; an exception propagates. -/
def scrapePdfs (lib : PdfLib) (ids : Nat → String) :
    Nat → List String → List OutLine × Option String × Nat
  | n, [] => ([], none, n)
  | n, f :: fs =>
    if strEndsWith (strLower f) ".pdf" then
      let path := PDF_FOLDER ++ "/" ++ f
      let recs := (PDFScraper.run lib path ids n).1
      let here := OutLine.marker ("--- SCRAPING PDF " ++ f ++ " ---")
        :: recs.map OutLine.record
      match (PDFScraper.run lib path ids n).2 with
      | some e => (here, some e, n + recs.length)
      | none =>
          (here ++ (scrapePdfs lib ids (n + recs.length) fs).1,
           (scrapePdfs lib ids (n + recs.length) fs).2.1,
           (scrapePdfs lib ids (n + recs.length) fs).2.2)
    else scrapePdfs lib ids n fs

/-- Command `scrape_all`: run every predefined HTML source, then, if
`os.path.isdir(PDF_FOLDER)`, run a `PDFScraper` over each PDF of the
sorted directory listing; otherwise echo the not-found diagnostic.
`folderIsDir` models `os.path.isdir(PDF_FOLDER)` and `listing` the raw
`os.listdir(PDF_FOLDER)`.  An uncaught exception anywhere aborts the
command with the lines echoed so far. -/
def scrape_all (w : Web) (lib : PdfLib) (folderIsDir : Bool)
    (listing : List String) (ids : Nat → String) :
    List OutLine × Option String :=
  let out := (scrapeSources w ids 0 PREDEFINED_SOURCES).1
  match (scrapeSources w ids 0 PREDEFINED_SOURCES).2.1 with
  | some e => (out, some e)
  | none =>
      if folderIsDir then
        let n := (scrapeSources w ids 0 PREDEFINED_SOURCES).2.2
        (out ++ (scrapePdfs lib ids n (sortStrs listing)).1,
         (scrapePdfs lib ids n (sortStrs listing)).2.1)
      else
        (out ++ [OutLine.marker ("PDF folder not found: " ++ PDF_FOLDER)], none)

/-! Helper functions used to state properties of the definitions above. -/

/-- Truthiness test `if href:` applied to an anchor inside
`parse_items`: the anchor contributes an item exactly when its `href`
attribute is present and non-empty. -/
def anchorKept (a : Elem) : Bool :=
  match a.attr "href" with
  | none => false
  | some h => if h = "" then false else true

/-- The locator contributed by a kept anchor: its href verbatim when it
starts with `"http"`, otherwise the href resolved against `start_url`.
(The `none` case is never reached on kept anchors.) -/
def resolveHref (w : Web) (sc : HtmlScraper) (a : Elem) : String :=
  match a.attr "href" with
  | none => ""
  | some h => if strStartsWith h "http" then h else w.urljoin sc.start_url h

/-- The record produced for one item locator whose own fetch succeeds.
(The `error` case is never reached under that hypothesis.) -/
def recOfItem (w : Web) (sc : HtmlScraper) (idv : String) (it : String) : Record :=
  match w.fetch it with
  | Except.ok html => HtmlScraper.buildRecord sc idv it (w.parse html)
  | Except.error _ => []

/-- Map a record builder over a list of item locators, feeding it each
item's position in the fresh-id stream. -/
def mapIds (f : Nat → String → Record) : Nat → List String → List Record
  | _, [] => []
  | n, it :: rest => f n it :: mapIds f (n + 1) rest

/-! Concrete fixtures: small closed environments on which the claims
are witnessed or refuted.  `noSoup` is a page with no matching
elements; the `Web` fixtures differ only in what the listing page
exposes and which item fetches fail. -/

/-- A parsed page on which every query comes back empty. -/
def noSoup : Soup := ⟨fun _ => none, fun _ => [], fun _ => none⟩

/-- A deterministic stream of fresh identifiers. -/
def idsA : Nat → String := fun n => "A" ++ toString n

/-- A second stream of fresh identifiers, disjoint from `idsA`. -/
def idsB : Nat → String := fun n => "B" ++ toString n

/-- A scraper configuration used by the concrete fixtures. -/
def cexSc : HtmlScraper := ⟨"S", "ls", "lk"⟩

/-- Listing page with two items of which the first one's fetch fails. -/
def webItemFail : Web :=
  { fetch := fun u =>
      if u = "S" then Except.ok "L"
      else if u = "http://good" then Except.ok "P"
      else Except.error ("404 " ++ u),
    parse := fun c =>
      if c = "L" then
        { noSoup with select := fun q =>
            if q = "ls lk" then
              [⟨[("href", "http://bad")], "x"⟩, ⟨[("href", "http://good")], "y"⟩]
            else [] }
      else noSoup,
    urljoin := fun b h => b ++ h }

/-- Listing page exposing the same absolute URL twice; every fetch
succeeds. -/
def webDup : Web :=
  { fetch := fun u =>
      if u = "S" then Except.ok "L"
      else if u = "http://x" then Except.ok "P"
      else Except.error "404",
    parse := fun c =>
      if c = "L" then
        { noSoup with select := fun q =>
            if q = "ls lk" then
              [⟨[("href", "http://x")], "x"⟩, ⟨[("href", "http://x")], "y"⟩]
            else [] }
      else noSoup,
    urljoin := fun b h => b ++ h }

/-- Listing page whose single anchor has an empty `href` attribute. -/
def webEmptyHref : Web :=
  { fetch := fun u => if u = "S" then Except.ok "L" else Except.error "404",
    parse := fun c =>
      if c = "L" then
        { noSoup with select := fun q =>
            if q = "ls lk" then [⟨[("href", "")], "t"⟩] else [] }
      else noSoup,
    urljoin := fun b h => b ++ h }

/-- Environment in which the first predefined source's listing fetch
fails while the second source's listing exposes one working item. -/
def webCatalogFail : Web :=
  { fetch := fun u =>
      if u = "https://interviewing.io/blog" then Except.error "E1"
      else if u = "https://interviewing.io/topics#companies" then Except.ok "L2"
      else if u = "http://c" then Except.ok "P"
      else Except.ok "EMPTY",
    parse := fun c =>
      if c = "L2" then
        { noSoup with select := fun q =>
            if q = ".markdown-content a[href*='/topics/']" then
              [⟨[("href", "http://c")], "t"⟩]
            else [] }
      else noSoup,
    urljoin := fun b h => b ++ h }

/-- The second entry of `PREDEFINED_SOURCES`, named for reuse. -/
def src2 : Source :=
  { name := "company_guides",
    start_url := "https://interviewing.io/topics#companies",
    list_sel := ".markdown-content",
    link_sel := "a[href*='/topics/']" }

/-- Environment in which the first predefined source's listing exposes
one working item and every other fetch returns an item-free page. -/
def webOneItem : Web :=
  { fetch := fun u =>
      if u = "https://interviewing.io/blog" then Except.ok "L1"
      else if u = "http://i" then Except.ok "P"
      else Except.ok "EMPTY",
    parse := fun c =>
      if c = "L1" then
        { noSoup with select := fun q =>
            if q = "h1 a" then [⟨[("href", "http://i")], "t"⟩] else [] }
      else noSoup,
    urljoin := fun b h => b ++ h }

/-- Environment fetching an item-free page for every URL. -/
def webPlain : Web :=
  { fetch := fun _ => Except.ok "P",
    parse := fun _ => noSoup,
    urljoin := fun b h => b ++ h }

/-- Environment whose `urljoin` returns the href unchanged. -/
def webIdJoin : Web :=
  { fetch := fun _ => Except.error "x",
    parse := fun _ => noSoup,
    urljoin := fun _ h => h }

/-- A PDF library fixture: one readable file whose extracted text is
`"T"`. -/
def pdfLibOk : PdfLib :=
  { read := fun p =>
      if p = "data/pdfs/a.pdf" then Except.ok "BYTES" else Except.error "missing",
    extract_text := fun p =>
      if p = "data/pdfs/a.pdf" then Except.ok "T" else Except.error "bad" }

/-! Theorems: shared helper lemmas first, then one theorem per claim
together with its witness or counterexample. -/

/-- Characterization of the `parse_items` loop body: it maps
`resolveHref` over exactly the anchors kept by the truthiness test on
`href`, preserving document order and duplicates. -/
lemma parseAnchors_eq (w : Web) (sc : HtmlScraper) (anchors : List Elem) :
    HtmlScraper.parseAnchors w sc anchors
      = (anchors.filter anchorKept).map (resolveHref w sc) := by
  induction anchors with
  | nil => rfl
  | cons a as ih =>
    simp only [HtmlScraper.parseAnchors] at ih ⊢
    cases h : a.attr "href" with
    | none =>
        simp [List.filterMap_cons, h, anchorKept, List.filter_cons, ih]
    | some s =>
        by_cases hs : s = ""
        · simp [List.filterMap_cons, h, hs, anchorKept, List.filter_cons, ih]
        · simp [List.filterMap_cons, h, hs, anchorKept, List.filter_cons, ih,
            resolveHref]

/-- A string starting with `"http"` is non-empty. -/
lemma startsWith_http_ne_empty (h : String)
    (hh : strStartsWith h "http" = true) : h ≠ "" := by
  intro he
  subst he
  exact absurd hh (by decide)

/-- C5 (corrected): the enumeration stage does NOT return the href of
*each* `link_selector` match: a match whose `href` attribute is the
empty string is dropped.  Here the listing page has exactly one
matching anchor, with `href=""`, and `parse_items` returns no
locators. -/
theorem C5_counterexample :
    ((webEmptyHref.parse "L").select "ls lk").length = 1
    ∧ HtmlScraper.parse_items webEmptyHref cexSc "L" = [] := by
  exact ⟨by decide, by decide⟩

/-- C5 (amended): `parse_items` returns, for each `link_selector`
match within a `list_selector` match whose `href` attribute is present
and non-empty, that href — verbatim when it starts with `"http"`,
otherwise resolved against `start_url` via `urljoin` — in document
order, with no deduplication (an href occurring in k kept anchors
yields k locators, as the map over the filtered anchor list). -/
theorem C5_theorem (w : Web) (sc : HtmlScraper) (page_content : String) :
    HtmlScraper.parse_items w sc page_content
      = (((w.parse page_content).select
            (sc.list_selector ++ " " ++ sc.link_selector)).filter anchorKept).map
          (resolveHref w sc) :=
  parseAnchors_eq w sc _

/-- C9: the enumeration stage skips an anchor whose href is absent or
empty; an anchor whose href starts with `"http"` contributes that href
verbatim, in position; and (provided the URL-resolution library never
turns a non-empty href into an empty URL) every returned locator is a
non-empty string. -/
theorem C9_theorem (w : Web) (sc : HtmlScraper)
    (hjoin : ∀ b h, h ≠ "" → w.urljoin b h ≠ "")
    (xs ys : List Elem) (a b : Elem) (h : String)
    (ha : a.attr "href" = none ∨ a.attr "href" = some "")
    (hb : b.attr "href" = some h) (hh : strStartsWith h "http" = true) :
    HtmlScraper.parseAnchors w sc (xs ++ a :: ys)
        = HtmlScraper.parseAnchors w sc (xs ++ ys)
    ∧ HtmlScraper.parseAnchors w sc (xs ++ b :: ys)
        = HtmlScraper.parseAnchors w sc xs ++ h :: HtmlScraper.parseAnchors w sc ys
    ∧ ∀ it ∈ HtmlScraper.parseAnchors w sc (xs ++ ys), it ≠ "" := by
  refine ⟨?_, ?_, ?_⟩
  · rcases ha with ha | ha
    · simp [HtmlScraper.parseAnchors, List.filterMap_append, List.filterMap_cons, ha]
    · simp [HtmlScraper.parseAnchors, List.filterMap_append, List.filterMap_cons, ha]
  · have hne : h ≠ "" := startsWith_http_ne_empty h hh
    simp [HtmlScraper.parseAnchors, List.filterMap_append, List.filterMap_cons,
      hb, hne, hh]
  · intro it hit
    simp only [HtmlScraper.parseAnchors, List.mem_filterMap] at hit
    obtain ⟨a', -, ha'⟩ := hit
    revert ha'
    cases hattr : a'.attr "href" with
    | none => intro ha'; cases ha'
    | some h' =>
        intro ha'
        have ha2 : (if h' = "" then none
            else some (if strStartsWith h' "http" = true then h'
                       else w.urljoin sc.start_url h')) = some it := ha'
        by_cases h'e : h' = ""
        · rw [if_pos h'e] at ha2; cases ha2
        · rw [if_neg h'e] at ha2
          obtain rfl := Option.some.inj ha2
          by_cases hsw : strStartsWith h' "http" = true
          · rw [if_pos hsw]
            exact startsWith_http_ne_empty _ hsw
          · rw [if_neg hsw]
            exact hjoin _ _ h'e

/-- Witness for C9 at a concrete page: an anchor with `href=""` is
dropped, an absolute `href="http://x"` passes through verbatim, and
no returned locator is empty. -/
theorem C9_witness :
    (HtmlScraper.parseAnchors webIdJoin cexSc
          ([] ++ (⟨[("href", "")], "t"⟩ : Elem) :: [])
        = HtmlScraper.parseAnchors webIdJoin cexSc ([] ++ []))
    ∧ (HtmlScraper.parseAnchors webIdJoin cexSc
          ([] ++ (⟨[("href", "http://x")], "u"⟩ : Elem) :: [])
        = HtmlScraper.parseAnchors webIdJoin cexSc []
            ++ "http://x" :: HtmlScraper.parseAnchors webIdJoin cexSc []) := by
  have h := C9_theorem webIdJoin cexSc (fun _ _ hne => hne) [] []
    ⟨[("href", "")], "t"⟩ ⟨[("href", "http://x")], "u"⟩ "http://x"
    (Or.inr (by decide)) (by decide) (by decide)
  exact ⟨h.1, h.2.1⟩

/-- A successful item fetch makes `extract_content` return the record
built from the parsed item page. -/
lemma html_extract_ok (w : Web) (sc : HtmlScraper) (idv it html : String)
    (h : w.fetch it = Except.ok html) :
    HtmlScraper.extract_content w sc idv it
      = Except.ok (HtmlScraper.buildRecord sc idv it (w.parse html)) := by
  simp [HtmlScraper.extract_content, h, Except.map]

/-- A failed item fetch propagates out of `extract_content`. -/
lemma html_extract_err (w : Web) (sc : HtmlScraper) (idv it e : String)
    (h : w.fetch it = Except.error e) :
    HtmlScraper.extract_content w sc idv it = Except.error e := by
  simp [HtmlScraper.extract_content, h, Except.map]

/-- Length of an id-indexed map. -/
lemma mapIds_length (f : Nat → String → Record) (n : Nat) (l : List String) :
    (mapIds f n l).length = l.length := by
  induction l generalizing n with
  | nil => rfl
  | cons x xs ih => simp [mapIds, ih]

/-- Element lookup in an id-indexed map. -/
lemma mapIds_getElem? (f : Nat → String → Record) (n i : Nat) (l : List String) :
    (mapIds f n l)[i]? = (l[i]?).map (fun it => f (n + i) it) := by
  induction l generalizing n i with
  | nil => simp [mapIds]
  | cons x xs ih =>
      cases i with
      | zero => simp [mapIds]
      | succ j =>
          simp only [mapIds, List.getElem?_cons_succ, ih (n + 1) j]
          have harith : n + 1 + j = n + (j + 1) := by omega
          rw [harith]

/-- When every item fetch succeeds, the item loop yields one record per
item occurrence, in order, each consuming one fresh id. -/
lemma runItems_all_ok (w : Web) (sc : HtmlScraper) (ids : Nat → String)
    (items : List String) (n : Nat)
    (h : ∀ it ∈ items, ∃ html, w.fetch it = Except.ok html) :
    HtmlScraper.runItems w sc ids n items
      = (mapIds (fun k it => recOfItem w sc (ids k) it) n items, none) := by
  induction items generalizing n with
  | nil => rfl
  | cons it rest ih =>
    obtain ⟨html, hf⟩ := h it (List.mem_cons_self it rest)
    have hrest : ∀ x ∈ rest, ∃ html, w.fetch x = Except.ok html :=
      fun x hx => h x (List.mem_cons_of_mem _ hx)
    simp [HtmlScraper.runItems, html_extract_ok w sc (ids n) it html hf,
      ih (n + 1) hrest, mapIds, recOfItem, hf]

/-- Splitting the item loop after a successfully processed prefix. -/
lemma runItems_ok_append (w : Web) (sc : HtmlScraper) (ids : Nat → String)
    (xs ys : List String) (n : Nat) (rs : List Record)
    (h : HtmlScraper.runItems w sc ids n xs = (rs, none)) :
    HtmlScraper.runItems w sc ids n (xs ++ ys)
      = (rs ++ (HtmlScraper.runItems w sc ids (n + rs.length) ys).1,
         (HtmlScraper.runItems w sc ids (n + rs.length) ys).2) := by
  induction xs generalizing n rs with
  | nil =>
      have h1 : rs = [] := by
        have h2 := congrArg Prod.fst h
        simp only [HtmlScraper.runItems] at h2
        exact h2.symm
      subst h1
      simp only [List.nil_append, List.length_nil, Nat.add_zero]
  | cons x xs ih =>
      revert h
      simp only [HtmlScraper.runItems, List.cons_append]
      cases he : HtmlScraper.extract_content w sc (ids n) x with
      | error e =>
          intro h
          have h2 : (some e : Option String) = none := congrArg Prod.snd h
          simp at h2
      | ok r =>
          intro h
          have h1 : r :: (HtmlScraper.runItems w sc ids (n + 1) xs).1 = rs :=
            congrArg Prod.fst h
          have h2 : (HtmlScraper.runItems w sc ids (n + 1) xs).2 = none :=
            congrArg Prod.snd h
          subst h1
          have hx : HtmlScraper.runItems w sc ids (n + 1) xs
              = ((HtmlScraper.runItems w sc ids (n + 1) xs).1, none) := by
            rw [← h2]
          show (r :: (HtmlScraper.runItems w sc ids (n + 1) (xs ++ ys)).1,
                (HtmlScraper.runItems w sc ids (n + 1) (xs ++ ys)).2) = _
          rw [ih (n + 1) _ hx]
          simp only [List.length_cons, List.cons_append]
          have harith : n + ((HtmlScraper.runItems w sc ids (n + 1) xs).1.length + 1)
              = n + 1 + (HtmlScraper.runItems w sc ids (n + 1) xs).1.length := by omega
          rw [harith]

/-- A listing-page fetch failure aborts the run with no records. -/
lemma run_fetch_err (w : Web) (sc : HtmlScraper) (ids : Nat → String)
    (n : Nat) (e : String) (hf : w.fetch sc.start_url = Except.error e) :
    HtmlScraper.run w sc ids n = ([], some e) := by
  simp [HtmlScraper.run, HtmlScraper.list_pages, HtmlScraper.runPages, hf]

/-- After a successful listing fetch, the run is the item loop over the
parsed items (the single-page case of the inherited `run`). -/
lemma run_fetch_ok (w : Web) (sc : HtmlScraper) (ids : Nat → String)
    (n : Nat) (pc : String) (hf : w.fetch sc.start_url = Except.ok pc) :
    HtmlScraper.run w sc ids n
      = HtmlScraper.runItems w sc ids n (HtmlScraper.parse_items w sc pc) := by
  cases h2 : (HtmlScraper.runItems w sc ids n (HtmlScraper.parse_items w sc pc)).2 with
  | none =>
      simp only [HtmlScraper.run, HtmlScraper.list_pages, HtmlScraper.runPages, hf, h2,
        List.append_nil]
      rw [← h2]
  | some e =>
      simp only [HtmlScraper.run, HtmlScraper.list_pages, HtmlScraper.runPages, hf, h2]
      rw [← h2]

/-- The `url` field of the record built for a fetchable item is that
item's locator. -/
lemma recOfItem_url (w : Web) (sc : HtmlScraper) (idv it : String)
    (h : ∃ html, w.fetch it = Except.ok html) :
    Record.get (recOfItem w sc idv it) "url" = some (JVal.str it) := by
  obtain ⟨html, hf⟩ := h
  simp [recOfItem, hf, HtmlScraper.buildRecord, Record.get, List.lookup]

/-- C1 (amended): an item-level fetch failure is NOT caught by the run:
the run yields the records of the items strictly before the first
failing item, then the exception propagates and aborts the run, so the
remaining discovered items yield nothing — the emitted count is the
index of the first failing item, not (discovered − failed). -/
theorem C1_theorem (w : Web) (sc : HtmlScraper) (ids : Nat → String) (n : Nat)
    (pc : String) (xs : List String) (bad : String) (rest : List String) (e : String)
    (hstart : w.fetch sc.start_url = Except.ok pc)
    (hsplit : HtmlScraper.parse_items w sc pc = xs ++ bad :: rest)
    (hxs : ∀ it ∈ xs, ∃ html, w.fetch it = Except.ok html)
    (hbad : w.fetch bad = Except.error e) :
    HtmlScraper.run w sc ids n
      = (mapIds (fun k it => recOfItem w sc (ids k) it) n xs, some e)
    ∧ (HtmlScraper.run w sc ids n).1.length = xs.length := by
  have hpref := runItems_all_ok w sc ids xs n hxs
  have happ := runItems_ok_append w sc ids xs (bad :: rest) n _ hpref
  have hlen : (mapIds (fun k it => recOfItem w sc (ids k) it) n xs).length
      = xs.length := mapIds_length _ _ _
  rw [hlen] at happ
  have hbadrun : HtmlScraper.runItems w sc ids (n + xs.length) (bad :: rest)
      = ([], some e) := by
    simp [HtmlScraper.runItems,
      html_extract_err w sc (ids (n + xs.length)) bad e hbad]
  have hb1 : (HtmlScraper.runItems w sc ids (n + xs.length) (bad :: rest)).1 = [] := by
    rw [hbadrun]
  have hb2 : (HtmlScraper.runItems w sc ids (n + xs.length) (bad :: rest)).2
      = some e := by
    rw [hbadrun]
  rw [hb1, hb2, List.append_nil] at happ
  have hrun : HtmlScraper.run w sc ids n
      = (mapIds (fun k it => recOfItem w sc (ids k) it) n xs, some e) := by
    rw [run_fetch_ok w sc ids n pc hstart, hsplit, happ]
  refine ⟨hrun, ?_⟩
  rw [hrun]
  exact hlen

/-- Witness for C1 (amended) on the two-item fixture whose first item
fails: the run aborts immediately with zero records. -/
theorem C1_witness :
    HtmlScraper.run webItemFail cexSc idsA 0
      = (mapIds (fun k it => recOfItem webItemFail cexSc (idsA k) it) 0 [],
         some "404 http://bad")
    ∧ (HtmlScraper.run webItemFail cexSc idsA 0).1.length
        = List.length ([] : List String) :=
  C1_theorem webItemFail cexSc idsA 0 "L" [] "http://bad" ["http://good"]
    "404 http://bad" rfl (by decide) (by simp) rfl

/-- C1 counterexample: a successfully parsed listing discovers two
items, exactly one of which fails to fetch, yet the run emits zero
records (not 2 − 1 = 1) and aborts with the propagated error. -/
theorem C1_counterexample :
    (HtmlScraper.parse_items webItemFail cexSc "L").length = 2
    ∧ webItemFail.fetch "http://bad" = Except.error "404 http://bad"
    ∧ webItemFail.fetch "http://good" = Except.ok "P"
    ∧ HtmlScraper.run webItemFail cexSc idsA 0 = ([], some "404 http://bad") := by
  exact ⟨by decide, rfl, rfl, by decide⟩

/-- C4 (amended): with a reachable start page all of whose discovered
item fetches succeed, the run emits exactly one record per discovered
item occurrence, in order — NOT per unique URL: duplicates in the
enumeration yield duplicate records — and record i's `url` field is the
i-th discovered locator (relative hrefs having been resolved against
`start_url` by `parse_items`). -/
theorem C4_theorem (w : Web) (sc : HtmlScraper) (ids : Nat → String) (n : Nat)
    (pc : String)
    (hstart : w.fetch sc.start_url = Except.ok pc)
    (hitems : ∀ it ∈ HtmlScraper.parse_items w sc pc,
        ∃ html, w.fetch it = Except.ok html) :
    HtmlScraper.run w sc ids n
      = (mapIds (fun k it => recOfItem w sc (ids k) it) n
          (HtmlScraper.parse_items w sc pc), none)
    ∧ (HtmlScraper.run w sc ids n).1.length
        = (HtmlScraper.parse_items w sc pc).length
    ∧ ∀ i : Nat, (((HtmlScraper.run w sc ids n).1[i]?).bind fun r => Record.get r "url")
        = ((HtmlScraper.parse_items w sc pc)[i]?).map JVal.str := by
  have hrun : HtmlScraper.run w sc ids n
      = (mapIds (fun k it => recOfItem w sc (ids k) it) n
          (HtmlScraper.parse_items w sc pc), none) := by
    rw [run_fetch_ok w sc ids n pc hstart]
    exact runItems_all_ok w sc ids _ n hitems
  refine ⟨hrun, by rw [hrun]; exact mapIds_length _ _ _, ?_⟩
  intro i
  rw [hrun]
  simp only [mapIds_getElem?]
  cases hsome : (HtmlScraper.parse_items w sc pc)[i]? with
  | none => simp
  | some it =>
      have hmem : it ∈ HtmlScraper.parse_items w sc pc :=
        List.getElem?_mem hsome
      simp only [Option.map_some', Option.some_bind]
      exact recOfItem_url w sc (ids (n + i)) it (hitems it hmem)

/-- Witness for C4 (amended) on the duplicate-href fixture. -/
theorem C4_witness :
    HtmlScraper.run webDup cexSc idsA 0
      = (mapIds (fun k it => recOfItem webDup cexSc (idsA k) it) 0
          (HtmlScraper.parse_items webDup cexSc "L"), none)
    ∧ (HtmlScraper.run webDup cexSc idsA 0).1.length
        = (HtmlScraper.parse_items webDup cexSc "L").length := by
  have hitems : ∀ it ∈ HtmlScraper.parse_items webDup cexSc "L",
      ∃ html, webDup.fetch it = Except.ok html := by
    intro it hit
    have hl : HtmlScraper.parse_items webDup cexSc "L"
        = ["http://x", "http://x"] := by decide
    rw [hl] at hit
    have h3 : it = "http://x" := by
      rcases List.mem_cons.mp hit with h | h
      · exact h
      · simpa using h
    subst h3
    exact ⟨"P", rfl⟩
  have h := C4_theorem webDup cexSc idsA 0 "L" rfl hitems
  exact ⟨h.1, h.2.1⟩

/-- C4 counterexample: a reachable listing page exposing the same
absolute URL twice, whose item fetch succeeds, yields TWO records for
ONE unique discovered URL — refuting "exactly one Record per unique
absolute URL". -/
theorem C4_counterexample :
    HtmlScraper.parse_items webDup cexSc "L" = ["http://x", "http://x"]
    ∧ (HtmlScraper.parse_items webDup cexSc "L").dedup.length = 1
    ∧ webDup.fetch "S" = Except.ok "L"
    ∧ webDup.fetch "http://x" = Except.ok "P"
    ∧ (HtmlScraper.run webDup cexSc idsA 0).1.length = 2 := by
  exact ⟨by decide, by decide, rfl, rfl, by decide⟩

/-- Every record yielded by the HTML item loop is a `buildRecord`
dict literal. -/
lemma html_runItems_mem (w : Web) (sc : HtmlScraper) (ids : Nat → String)
    (n : Nat) (items : List String) (r : Record)
    (hr : r ∈ (HtmlScraper.runItems w sc ids n items).1) :
    ∃ idv it soup, r = HtmlScraper.buildRecord sc idv it soup := by
  induction items generalizing n with
  | nil => simp [HtmlScraper.runItems] at hr
  | cons it rest ih =>
      revert hr
      simp only [HtmlScraper.runItems]
      cases he : HtmlScraper.extract_content w sc (ids n) it with
      | error e => intro hr; simp at hr
      | ok r0 =>
          intro hr
          rcases List.mem_cons.mp hr with h1 | h2
          · revert he
            simp only [HtmlScraper.extract_content]
            cases hf : w.fetch it with
            | error e => intro he; simp [Except.map] at he
            | ok html =>
                intro he
                have he2 : Except.ok (HtmlScraper.buildRecord sc (ids n) it
                    (w.parse html)) = Except.ok r0 := he
                exact ⟨ids n, it, w.parse html, h1.trans (Except.ok.inj he2).symm⟩
          · exact ih (n + 1) h2

/-- Every record yielded by the HTML page loop is a `buildRecord`
dict literal. -/
lemma html_runPages_mem (w : Web) (sc : HtmlScraper) (ids : Nat → String)
    (n : Nat) (pages : List String) (r : Record)
    (hr : r ∈ (HtmlScraper.runPages w sc ids n pages).1) :
    ∃ idv it soup, r = HtmlScraper.buildRecord sc idv it soup := by
  induction pages generalizing n with
  | nil => simp [HtmlScraper.runPages] at hr
  | cons p ps ih =>
      revert hr
      simp only [HtmlScraper.runPages]
      split
      · intro hr; simp at hr
      · split
        · intro hr
          exact html_runItems_mem w sc ids n _ r hr
        · intro hr
          rcases List.mem_append.mp hr with h | h
          · exact html_runItems_mem w sc ids n _ r h
          · exact ih _ h

/-- Every record yielded by the PDF item loop is the three-key
PDF dict literal. -/
lemma pdf_runItems_mem (lib : PdfLib) (ids : Nat → String)
    (n : Nat) (items : List String) (r : Record)
    (hr : r ∈ (PDFScraper.runItems lib ids n items).1) :
    ∃ idv it text, r = PDFScraper.buildRecord idv it text := by
  induction items generalizing n with
  | nil => simp [PDFScraper.runItems] at hr
  | cons it rest ih =>
      revert hr
      simp only [PDFScraper.runItems]
      cases he : PDFScraper.extract_content lib (ids n) it with
      | error e => intro hr; simp at hr
      | ok r0 =>
          intro hr
          rcases List.mem_cons.mp hr with h1 | h2
          · revert he
            simp only [PDFScraper.extract_content]
            cases ht : lib.extract_text it with
            | error e => intro he; simp [Except.map] at he
            | ok text =>
                intro he
                have he2 : Except.ok (PDFScraper.buildRecord (ids n) it text)
                    = Except.ok r0 := he
                exact ⟨ids n, it, text, h1.trans (Except.ok.inj he2).symm⟩
          · exact ih (n + 1) h2

/-- Every record yielded by the PDF page loop is the three-key
PDF dict literal. -/
lemma pdf_runPages_mem (lib : PdfLib) (pdf_path : String) (ids : Nat → String)
    (n : Nat) (pages : List String) (r : Record)
    (hr : r ∈ (PDFScraper.runPages lib pdf_path ids n pages).1) :
    ∃ idv it text, r = PDFScraper.buildRecord idv it text := by
  induction pages generalizing n with
  | nil => simp [PDFScraper.runPages] at hr
  | cons p ps ih =>
      revert hr
      simp only [PDFScraper.runPages]
      split
      · intro hr; simp at hr
      · split
        · intro hr
          exact pdf_runItems_mem lib ids n _ r hr
        · intro hr
          rcases List.mem_append.mp hr with h | h
          · exact pdf_runItems_mem lib ids n _ r h
          · exact ih _ h

/-- C3 (amended): `content` is always present, but key presence
differs by variant: every record emitted by an HTML run carries all
seven keys (the four optional ones present-or-null), while every
record emitted by a PDF run carries ONLY `id`, `source`, `content` —
the keys `url`, `title`, `author`, `date` are missing entirely from
PDF records. -/
theorem C3_theorem :
    (∀ (w : Web) (sc : HtmlScraper) (ids : Nat → String) (n : Nat) (r : Record),
        r ∈ (HtmlScraper.run w sc ids n).1 →
          Record.keys r = ["id", "source", "url", "title", "author", "date", "content"])
    ∧ (∀ (lib : PdfLib) (p : String) (ids : Nat → String) (n : Nat) (r : Record),
        r ∈ (PDFScraper.run lib p ids n).1 →
          Record.keys r = ["id", "source", "content"]) := by
  constructor
  · intro w sc ids n r hr
    obtain ⟨idv, it, soup, rfl⟩ := html_runPages_mem w sc ids n _ r hr
    rfl
  · intro lib p ids n r hr
    obtain ⟨idv, it, text, rfl⟩ := pdf_runPages_mem lib p ids n _ r hr
    rfl

/-- Witness for C3 (amended): key lists of one concrete emitted HTML
record and one concrete emitted PDF record. -/
theorem C3_witness :
    Record.keys (HtmlScraper.buildRecord cexSc "A0" "http://x" noSoup)
      = ["id", "source", "url", "title", "author", "date", "content"]
    ∧ Record.keys (PDFScraper.buildRecord "A0" "data/pdfs/a.pdf" "T")
      = ["id", "source", "content"] := by
  have h := C3_theorem
  exact ⟨h.1 webDup cexSc idsA 0 _ (by decide),
         h.2 pdfLibOk "data/pdfs/a.pdf" idsA 0 _ (by decide)⟩

/-- C3 counterexample: a PDF run emits a record in which the optional
keys are NOT present-or-null — `url` is simply absent. -/
theorem C3_counterexample :
    PDFScraper.run pdfLibOk "data/pdfs/a.pdf" idsA 0
      = ([[("id", JVal.str "A0"), ("source", JVal.str "a.pdf"),
           ("content", JVal.str "T")]], none)
    ∧ Record.get [("id", JVal.str "A0"), ("source", JVal.str "a.pdf"),
        ("content", JVal.str "T")] "url" = none
    ∧ "url" ∉ Record.keys [("id", JVal.str "A0"), ("source", JVal.str "a.pdf"),
        ("content", JVal.str "T")] := by
  exact ⟨by decide, by decide, by decide⟩

/-- C6: for a readable PDF file on which text extraction succeeds, the
run emits exactly one record whose `content` is the extracted text
verbatim and whose `source` is the file's base name. -/
theorem C6_theorem (lib : PdfLib) (path : String) (ids : Nat → String) (n : Nat)
    (bs text : String)
    (hread : lib.read path = Except.ok bs)
    (htext : lib.extract_text path = Except.ok text) :
    PDFScraper.run lib path ids n
      = ([PDFScraper.buildRecord (ids n) path text], none)
    ∧ (PDFScraper.run lib path ids n).1.length = 1
    ∧ Record.get (PDFScraper.buildRecord (ids n) path text) "content"
        = some (JVal.str text)
    ∧ Record.get (PDFScraper.buildRecord (ids n) path text) "source"
        = some (JVal.str (basename path)) := by
  have hrun : PDFScraper.run lib path ids n
      = ([PDFScraper.buildRecord (ids n) path text], none) := by
    simp [PDFScraper.run, PDFScraper.list_pages, PDFScraper.runPages,
      PDFScraper.parse_items, PDFScraper.runItems, PDFScraper.extract_content,
      hread, htext, Except.map]
  refine ⟨hrun, by rw [hrun]; rfl, ?_, ?_⟩
  · simp [PDFScraper.buildRecord, Record.get, List.lookup]
  · simp [PDFScraper.buildRecord, Record.get, List.lookup]

/-- Witness for C6 on the concrete PDF fixture. -/
theorem C6_witness :
    PDFScraper.run pdfLibOk "data/pdfs/a.pdf" idsA 0
      = ([PDFScraper.buildRecord (idsA 0) "data/pdfs/a.pdf" "T"], none)
    ∧ (PDFScraper.run pdfLibOk "data/pdfs/a.pdf" idsA 0).1.length = 1
    ∧ Record.get (PDFScraper.buildRecord (idsA 0) "data/pdfs/a.pdf" "T") "content"
        = some (JVal.str "T")
    ∧ Record.get (PDFScraper.buildRecord (idsA 0) "data/pdfs/a.pdf" "T") "source"
        = some (JVal.str (basename "data/pdfs/a.pdf")) :=
  C6_theorem pdfLibOk "data/pdfs/a.pdf" idsA 0 "BYTES" "T" rfl rfl

/-- C7: on a successfully fetched item page, `extract_content` returns
(without error) the record whose `title` is the first h1's stripped
text, `date` the time element's `datetime` attribute, `author` the
first `.author` match's text, and `content` the paragraph texts under
the article/post-content/content containers joined by blank lines;
each missing optional element makes the corresponding field an
explicit null. -/
theorem C7_theorem (w : Web) (sc : HtmlScraper) (idv item_url html : String)
    (hfetch : w.fetch item_url = Except.ok html) :
    HtmlScraper.extract_content w sc idv item_url
      = Except.ok (HtmlScraper.buildRecord sc idv item_url (w.parse html))
    ∧ Record.get (HtmlScraper.buildRecord sc idv item_url (w.parse html)) "title"
        = some (optJ (((w.parse html).find "h1").map Elem.text))
    ∧ Record.get (HtmlScraper.buildRecord sc idv item_url (w.parse html)) "date"
        = some (optJ (((w.parse html).find "time").bind fun t => t.attr "datetime"))
    ∧ Record.get (HtmlScraper.buildRecord sc idv item_url (w.parse html)) "author"
        = some (optJ (((w.parse html).select_one ".author").map Elem.text))
    ∧ Record.get (HtmlScraper.buildRecord sc idv item_url (w.parse html)) "content"
        = some (JVal.str (String.intercalate "\n\n"
            (((w.parse html).select "article p, .post-content p, .content p").map
              Elem.text)))
    ∧ ((w.parse html).find "h1" = none →
        Record.get (HtmlScraper.buildRecord sc idv item_url (w.parse html)) "title"
          = some JVal.null)
    ∧ ((w.parse html).find "time" = none →
        Record.get (HtmlScraper.buildRecord sc idv item_url (w.parse html)) "date"
          = some JVal.null)
    ∧ ((w.parse html).select_one ".author" = none →
        Record.get (HtmlScraper.buildRecord sc idv item_url (w.parse html)) "author"
          = some JVal.null) := by
  refine ⟨html_extract_ok w sc idv item_url html hfetch, ?_, ?_, ?_, ?_, ?_, ?_, ?_⟩
  · simp [HtmlScraper.buildRecord, Record.get, List.lookup]
  · simp [HtmlScraper.buildRecord, Record.get, List.lookup]
  · simp [HtmlScraper.buildRecord, Record.get, List.lookup]
  · simp [HtmlScraper.buildRecord, Record.get, List.lookup]
  · intro h
    simp [HtmlScraper.buildRecord, Record.get, List.lookup, h, optJ]
  · intro h
    simp [HtmlScraper.buildRecord, Record.get, List.lookup, h, optJ]
  · intro h
    simp [HtmlScraper.buildRecord, Record.get, List.lookup, h, optJ]

/-- Witness for C7 on an item page with no h1, no time element, no
author element, and no paragraphs: extraction succeeds with explicit
nulls and empty content. -/
theorem C7_witness :
    HtmlScraper.extract_content webPlain cexSc "A0" "http://i"
      = Except.ok [("id", JVal.str "A0"), ("source", JVal.str "S"),
          ("url", JVal.str "http://i"), ("title", JVal.null),
          ("author", JVal.null), ("date", JVal.null),
          ("content", JVal.str "")] := by
  have h := C7_theorem webPlain cexSc "A0" "http://i" "P" rfl
  exact h.1.trans rfl

/-- Two item loops over the same fetched inputs differ only in the id
stream: same error, same record count, identical records after
dropping the leading `id` entry, and the i-th record's first entry is
`("id", ids (n+i))` — a function of the stream position only, never of
the record's content. -/
lemma html_runItems_shape (w : Web) (sc : HtmlScraper) (ids₁ ids₂ : Nat → String)
    (items : List String) (n : Nat) :
    (HtmlScraper.runItems w sc ids₁ n items).2
        = (HtmlScraper.runItems w sc ids₂ n items).2
    ∧ (HtmlScraper.runItems w sc ids₁ n items).1.length
        = (HtmlScraper.runItems w sc ids₂ n items).1.length
    ∧ (∀ i : Nat, ((HtmlScraper.runItems w sc ids₁ n items).1[i]?).map List.tail
          = ((HtmlScraper.runItems w sc ids₂ n items).1[i]?).map List.tail)
    ∧ (∀ (i : Nat) (r : Record), (HtmlScraper.runItems w sc ids₁ n items).1[i]? = some r →
          r.head? = some ("id", JVal.str (ids₁ (n + i)))) := by
  induction items generalizing n with
  | nil =>
      refine ⟨rfl, rfl, ?_, ?_⟩
      · intro i
        rfl
      · intro i r hr
        simp [HtmlScraper.runItems] at hr
  | cons it rest ih =>
      obtain ⟨ih1, ih2, ih3, ih4⟩ := ih (n + 1)
      cases hf : w.fetch it with
      | error e =>
          have e1 : HtmlScraper.runItems w sc ids₁ n (it :: rest) = ([], some e) := by
            simp [HtmlScraper.runItems, html_extract_err w sc (ids₁ n) it e hf]
          have e2 : HtmlScraper.runItems w sc ids₂ n (it :: rest) = ([], some e) := by
            simp [HtmlScraper.runItems, html_extract_err w sc (ids₂ n) it e hf]
          rw [e1, e2]
          refine ⟨rfl, rfl, ?_, ?_⟩
          · intro i
            rfl
          · intro i r hr
            simp at hr
      | ok html =>
          have e1 : HtmlScraper.runItems w sc ids₁ n (it :: rest)
              = (HtmlScraper.buildRecord sc (ids₁ n) it (w.parse html)
                  :: (HtmlScraper.runItems w sc ids₁ (n + 1) rest).1,
                 (HtmlScraper.runItems w sc ids₁ (n + 1) rest).2) := by
            simp [HtmlScraper.runItems, html_extract_ok w sc (ids₁ n) it html hf]
          have e2 : HtmlScraper.runItems w sc ids₂ n (it :: rest)
              = (HtmlScraper.buildRecord sc (ids₂ n) it (w.parse html)
                  :: (HtmlScraper.runItems w sc ids₂ (n + 1) rest).1,
                 (HtmlScraper.runItems w sc ids₂ (n + 1) rest).2) := by
            simp [HtmlScraper.runItems, html_extract_ok w sc (ids₂ n) it html hf]
          rw [e1, e2]
          refine ⟨ih1, by simp [ih2], ?_, ?_⟩
          · intro i
            cases i with
            | zero =>
                simp only [List.getElem?_cons_zero, Option.map_some']
                rfl
            | succ j =>
                simp only [List.getElem?_cons_succ]
                exact ih3 j
          · intro i r hr
            cases i with
            | zero =>
                simp only [List.getElem?_cons_zero] at hr
                have hr2 : HtmlScraper.buildRecord sc (ids₁ n) it (w.parse html)
                    = r := Option.some.inj hr
                rw [← hr2]
                rfl
            | succ j =>
                simp only [List.getElem?_cons_succ] at hr
                have harith : n + (j + 1) = n + 1 + j := by omega
                rw [harith]
                exact ih4 j r hr

/-- Run-level version of `html_runItems_shape`. -/
lemma html_run_shape (w : Web) (sc : HtmlScraper) (ids₁ ids₂ : Nat → String)
    (n : Nat) :
    (HtmlScraper.run w sc ids₁ n).2 = (HtmlScraper.run w sc ids₂ n).2
    ∧ (HtmlScraper.run w sc ids₁ n).1.length = (HtmlScraper.run w sc ids₂ n).1.length
    ∧ (∀ i : Nat, ((HtmlScraper.run w sc ids₁ n).1[i]?).map List.tail
          = ((HtmlScraper.run w sc ids₂ n).1[i]?).map List.tail)
    ∧ (∀ (i : Nat) (r : Record), (HtmlScraper.run w sc ids₁ n).1[i]? = some r →
          r.head? = some ("id", JVal.str (ids₁ (n + i)))) := by
  cases hf : w.fetch sc.start_url with
  | error e =>
      rw [run_fetch_err w sc ids₁ n e hf, run_fetch_err w sc ids₂ n e hf]
      refine ⟨rfl, rfl, ?_, ?_⟩
      · intro i
        rfl
      · intro i r hr
        simp at hr
  | ok pc =>
      rw [run_fetch_ok w sc ids₁ n pc hf, run_fetch_ok w sc ids₂ n pc hf]
      exact html_runItems_shape w sc ids₁ ids₂ (HtmlScraper.parse_items w sc pc) n

/-- PDF analogue of `html_run_shape`: the single emitted record differs
between two id streams only in its leading `id` entry. -/
lemma pdf_run_shape (lib : PdfLib) (p : String) (ids₁ ids₂ : Nat → String)
    (n : Nat) :
    (PDFScraper.run lib p ids₁ n).2 = (PDFScraper.run lib p ids₂ n).2
    ∧ (PDFScraper.run lib p ids₁ n).1.length = (PDFScraper.run lib p ids₂ n).1.length
    ∧ (∀ i : Nat, ((PDFScraper.run lib p ids₁ n).1[i]?).map List.tail
          = ((PDFScraper.run lib p ids₂ n).1[i]?).map List.tail)
    ∧ (∀ (i : Nat) (r : Record), (PDFScraper.run lib p ids₁ n).1[i]? = some r →
          r.head? = some ("id", JVal.str (ids₁ (n + i)))) := by
  cases hr : lib.read p with
  | error e =>
      have e1 : ∀ ids : Nat → String, PDFScraper.run lib p ids n = ([], some e) := by
        intro ids
        simp [PDFScraper.run, PDFScraper.list_pages, PDFScraper.runPages, hr]
      rw [e1 ids₁, e1 ids₂]
      refine ⟨rfl, rfl, ?_, ?_⟩
      · intro i
        rfl
      · intro i r hrr
        simp at hrr
  | ok bs =>
      cases ht : lib.extract_text p with
      | error e =>
          have e1 : ∀ ids : Nat → String,
              PDFScraper.run lib p ids n = ([], some e) := by
            intro ids
            simp [PDFScraper.run, PDFScraper.list_pages, PDFScraper.runPages,
              PDFScraper.parse_items, PDFScraper.runItems,
              PDFScraper.extract_content, hr, ht, Except.map]
          rw [e1 ids₁, e1 ids₂]
          refine ⟨rfl, rfl, ?_, ?_⟩
          · intro i
            rfl
          · intro i r hrr
            simp at hrr
      | ok text =>
          have e1 : ∀ ids : Nat → String, PDFScraper.run lib p ids n
              = ([PDFScraper.buildRecord (ids n) p text], none) := by
            intro ids
            simp [PDFScraper.run, PDFScraper.list_pages, PDFScraper.runPages,
              PDFScraper.parse_items, PDFScraper.runItems,
              PDFScraper.extract_content, hr, ht, Except.map]
          rw [e1 ids₁, e1 ids₂]
          refine ⟨rfl, rfl, ?_, ?_⟩
          · intro i
            cases i with
            | zero =>
                simp only [List.getElem?_cons_zero, Option.map_some']
                rfl
            | succ j =>
                simp only [List.getElem?_cons_succ]
          · intro i r hrr
            cases i with
            | zero =>
                simp only [List.getElem?_cons_zero] at hrr
                have h2 : PDFScraper.buildRecord (ids₁ n) p text = r :=
                  Option.some.inj hrr
                rw [← h2]
                rfl
            | succ j => simp at hrr

/-- C8: two runs of the same source (HTML or PDF) over identical
fetched inputs agree on the error, the record count, and on every
field except `id` (the record minus its leading `id` entry is
identical, in the same order); the i-th record's id is the id stream's
value at position n+i — generated fresh per record, never derived from
content — so whenever the two streams differ at a position, the
corresponding records differ. -/
theorem C8_theorem (w : Web) (sc : HtmlScraper) (lib : PdfLib) (p : String)
    (ids₁ ids₂ : Nat → String) (n : Nat) :
    ((HtmlScraper.run w sc ids₁ n).2 = (HtmlScraper.run w sc ids₂ n).2)
    ∧ (HtmlScraper.run w sc ids₁ n).1.length = (HtmlScraper.run w sc ids₂ n).1.length
    ∧ (∀ i : Nat, ((HtmlScraper.run w sc ids₁ n).1[i]?).map List.tail
          = ((HtmlScraper.run w sc ids₂ n).1[i]?).map List.tail)
    ∧ (∀ (i : Nat) (r : Record), (HtmlScraper.run w sc ids₁ n).1[i]? = some r →
          r.head? = some ("id", JVal.str (ids₁ (n + i))))
    ∧ (∀ (i : Nat) (r₁ r₂ : Record), (HtmlScraper.run w sc ids₁ n).1[i]? = some r₁ →
          (HtmlScraper.run w sc ids₂ n).1[i]? = some r₂ →
          ids₁ (n + i) ≠ ids₂ (n + i) → r₁ ≠ r₂)
    ∧ ((PDFScraper.run lib p ids₁ n).2 = (PDFScraper.run lib p ids₂ n).2)
    ∧ (PDFScraper.run lib p ids₁ n).1.length = (PDFScraper.run lib p ids₂ n).1.length
    ∧ (∀ i : Nat, ((PDFScraper.run lib p ids₁ n).1[i]?).map List.tail
          = ((PDFScraper.run lib p ids₂ n).1[i]?).map List.tail)
    ∧ (∀ (i : Nat) (r₁ r₂ : Record), (PDFScraper.run lib p ids₁ n).1[i]? = some r₁ →
          (PDFScraper.run lib p ids₂ n).1[i]? = some r₂ →
          ids₁ (n + i) ≠ ids₂ (n + i) → r₁ ≠ r₂) := by
  obtain ⟨h1, h2, h3, h4⟩ := html_run_shape w sc ids₁ ids₂ n
  obtain ⟨-, -, -, h4'⟩ := html_run_shape w sc ids₂ ids₁ n
  obtain ⟨p1, p2, p3, p4⟩ := pdf_run_shape lib p ids₁ ids₂ n
  obtain ⟨-, -, -, p4'⟩ := pdf_run_shape lib p ids₂ ids₁ n
  refine ⟨h1, h2, h3, h4, ?_, p1, p2, p3, ?_⟩
  · intro i r₁ r₂ hr₁ hr₂ hne heq
    apply hne
    have k₁ := h4 i r₁ hr₁
    have k₂ := h4' i r₂ hr₂
    rw [heq, k₂] at k₁
    have h5 := Option.some.inj k₁
    have h6 := congrArg Prod.snd h5
    simpa using h6.symm
  · intro i r₁ r₂ hr₁ hr₂ hne heq
    apply hne
    have k₁ := p4 i r₁ hr₁
    have k₂ := p4' i r₂ hr₂
    rw [heq, k₂] at k₁
    have h5 := Option.some.inj k₁
    have h6 := congrArg Prod.snd h5
    simpa using h6.symm

/-- Witness for C8 on the duplicate-URL fixture with two disjoint id
streams: the first records of the two runs agree after dropping the
`id` entry, and differ as whole records. -/
theorem C8_witness :
    ((HtmlScraper.run webDup cexSc idsA 0).1[0]?).map List.tail
        = ((HtmlScraper.run webDup cexSc idsB 0).1[0]?).map List.tail
    ∧ HtmlScraper.buildRecord cexSc "A0" "http://x" noSoup
        ≠ HtmlScraper.buildRecord cexSc "B0" "http://x" noSoup := by
  have h := C8_theorem webDup cexSc pdfLibOk "data/pdfs/a.pdf" idsA idsB 0
  exact ⟨h.2.2.1 0,
    h.2.2.2.2.1 0 _ _ (by decide) (by decide) (by decide)⟩

/-- Splitting the catalog loop after a prefix of sources that all ran
without error. -/
lemma scrapeSources_ok_append (w : Web) (ids : Nat → String)
    (xs ys : List Source) (n n₁ : Nat) (o : List OutLine)
    (h : scrapeSources w ids n xs = (o, none, n₁)) :
    scrapeSources w ids n (xs ++ ys)
      = (o ++ (scrapeSources w ids n₁ ys).1,
         (scrapeSources w ids n₁ ys).2.1, (scrapeSources w ids n₁ ys).2.2) := by
  induction xs generalizing n n₁ o with
  | nil =>
      have h1 : ([] : List OutLine) = o := congrArg (·.1) h
      have h3 : n = n₁ := congrArg (·.2.2) h
      subst h1
      subst h3
      simp only [List.nil_append]
  | cons s ss ih =>
      revert h
      simp only [scrapeSources, List.cons_append]
      cases he : (HtmlScraper.run w s.scraper ids n).2 with
      | some e =>
          intro h
          have h2 : (some e : Option String) = none := congrArg (·.2.1) h
          simp at h2
      | none =>
          intro h
          have h1 : OutLine.marker (srcMarker s)
                :: List.map OutLine.record (HtmlScraper.run w s.scraper ids n).1
              ++ (scrapeSources w ids
                  (n + (HtmlScraper.run w s.scraper ids n).1.length) ss).1 = o :=
            congrArg (·.1) h
          have h2 : (scrapeSources w ids
              (n + (HtmlScraper.run w s.scraper ids n).1.length) ss).2.1 = none :=
            congrArg (·.2.1) h
          have h3 : (scrapeSources w ids
              (n + (HtmlScraper.run w s.scraper ids n).1.length) ss).2.2 = n₁ :=
            congrArg (·.2.2) h
          have hx : scrapeSources w ids
              (n + (HtmlScraper.run w s.scraper ids n).1.length) ss
              = ((scrapeSources w ids
                  (n + (HtmlScraper.run w s.scraper ids n).1.length) ss).1,
                 none, n₁) := by
            rw [← h2, ← h3]
          have ihx := ih _ _ _ hx
          show (OutLine.marker (srcMarker s) ::
              (List.map OutLine.record (HtmlScraper.run w s.scraper ids n).1 ++
                (scrapeSources w ids
                  (n + (HtmlScraper.run w s.scraper ids n).1.length) (ss ++ ys)).1),
            (scrapeSources w ids
              (n + (HtmlScraper.run w s.scraper ids n).1.length) (ss ++ ys)).2.1,
            (scrapeSources w ids
              (n + (HtmlScraper.run w s.scraper ids n).1.length) (ss ++ ys)).2.2)
            = _
          rw [ihx, ← h1]
          simp [List.append_assoc]

/-- The catalog loop's first output line is always the first source's
progress marker. -/
lemma scrapeSources_head (w : Web) (ids : Nat → String) (n : Nat)
    (s : Source) (ss : List Source) :
    (scrapeSources w ids n (s :: ss)).1.head?
      = some (OutLine.marker (srcMarker s)) := by
  simp only [scrapeSources]
  cases (HtmlScraper.run w s.scraper ids n).2 <;> simp

/-- C2 (amended): a listing-page fetch failure for one catalog source
is NOT contained: the exception propagates out of `scrape_all`, which
stops right there — sources before the failing one have already
emitted their lines, but every later source and the entire PDF stage
never run at all. -/
theorem C2_theorem (w : Web) (lib : PdfLib) (folderIsDir : Bool)
    (listing : List String) (ids : Nat → String)
    (xs : List Source) (s : Source) (ys : List Source)
    (oxs : List OutLine) (n₁ : Nat) (rs : List Record) (e : String)
    (hsplit : PREDEFINED_SOURCES = xs ++ s :: ys)
    (hxs : scrapeSources w ids 0 xs = (oxs, none, n₁))
    (hs : HtmlScraper.run w s.scraper ids n₁ = (rs, some e)) :
    scrape_all w lib folderIsDir listing ids
      = (oxs ++ OutLine.marker (srcMarker s) :: rs.map OutLine.record, some e) := by
  have hss := scrapeSources_ok_append w ids xs (s :: ys) 0 n₁ oxs hxs
  have hr1 : (HtmlScraper.run w s.scraper ids n₁).1 = rs := by rw [hs]
  have hr2 : (HtmlScraper.run w s.scraper ids n₁).2 = some e := by rw [hs]
  have hcons : scrapeSources w ids n₁ (s :: ys)
      = (OutLine.marker (srcMarker s) :: rs.map OutLine.record, some e,
         n₁ + rs.length) := by
    simp [scrapeSources, hr1, hr2]
  have hfull : scrapeSources w ids 0 PREDEFINED_SOURCES
      = (oxs ++ OutLine.marker (srcMarker s) :: rs.map OutLine.record, some e,
         n₁ + rs.length) := by
    rw [hsplit, hss, hcons]
  have hf1 : (scrapeSources w ids 0 PREDEFINED_SOURCES).1
      = oxs ++ OutLine.marker (srcMarker s) :: rs.map OutLine.record := by
    rw [hfull]
  have hf2 : (scrapeSources w ids 0 PREDEFINED_SOURCES).2.1 = some e := by
    rw [hfull]
  simp [scrape_all, hf1, hf2]

/-- Witness for C2 (amended): in the fixture where the first predefined
source's listing fetch fails, `scrape_all` stops with only that
source's marker echoed. -/
theorem C2_witness :
    scrape_all webCatalogFail pdfLibOk true ["a.pdf"] idsA
      = ([] ++ OutLine.marker (srcMarker
            ⟨"interviewing_blog", "https://interviewing.io/blog", "h1", "a"⟩)
          :: List.map OutLine.record ([] : List Record), some "E1") :=
  C2_theorem webCatalogFail pdfLibOk true ["a.pdf"] idsA
    [] ⟨"interviewing_blog", "https://interviewing.io/blog", "h1", "a"⟩
    (List.drop 1 PREDEFINED_SOURCES) [] 0 [] "E1"
    (by decide) rfl (by decide)

/-- C2 counterexample: with the first source's listing fetch failing
while the second source and a catalog PDF would each emit one record,
`scrape_all` emits only the first source's marker and aborts — the
remaining catalog sources and the PDF files do NOT execute, refuting
"only that source is skipped". -/
theorem C2_counterexample :
    scrape_all webCatalogFail pdfLibOk true ["a.pdf"] idsA
      = ([OutLine.marker
            "--- SCRAPING interviewing_blog (https://interviewing.io/blog) ---"],
         some "E1")
    ∧ (HtmlScraper.run webCatalogFail src2.scraper idsA 0).1.length = 1
    ∧ (PDFScraper.run pdfLibOk "data/pdfs/a.pdf" idsA 0).1.length = 1 := by
  exact ⟨by decide, by decide, by decide⟩

/-- C10: when every predefined source runs without error and the PDF
folder is absent, the `scrape_all` output stream is the sources' lines
followed by the `PDF folder not found` diagnostic — progress markers,
serialized records, and the diagnostic all on the same stream, whose
first line is a marker, so the stream is not composed solely of
records. -/
theorem C10_theorem (w : Web) (lib : PdfLib) (listing : List String)
    (ids : Nat → String) (out : List OutLine) (n : Nat)
    (hok : scrapeSources w ids 0 PREDEFINED_SOURCES = (out, none, n)) :
    scrape_all w lib false listing ids
      = (out ++ [OutLine.marker ("PDF folder not found: " ++ PDF_FOLDER)], none)
    ∧ OutLine.marker ("PDF folder not found: " ++ PDF_FOLDER)
        ∈ (scrape_all w lib false listing ids).1
    ∧ (scrape_all w lib false listing ids).1.head?
        = some (OutLine.marker
            "--- SCRAPING interviewing_blog (https://interviewing.io/blog) ---")
    ∧ ∃ l ∈ (scrape_all w lib false listing ids).1, l.isRecord = false := by
  have hf1 : (scrapeSources w ids 0 PREDEFINED_SOURCES).1 = out := by rw [hok]
  have hf2 : (scrapeSources w ids 0 PREDEFINED_SOURCES).2.1 = none := by rw [hok]
  have heq : scrape_all w lib false listing ids
      = (out ++ [OutLine.marker ("PDF folder not found: " ++ PDF_FOLDER)], none) := by
    simp [scrape_all, hf1, hf2]
  have hhead0 : (scrapeSources w ids 0 PREDEFINED_SOURCES).1.head?
      = some (OutLine.marker (srcMarker
          ⟨"interviewing_blog", "https://interviewing.io/blog", "h1", "a"⟩)) :=
    scrapeSources_head w ids 0 _ _
  have hstr : srcMarker ⟨"interviewing_blog", "https://interviewing.io/blog", "h1", "a"⟩
      = "--- SCRAPING interviewing_blog (https://interviewing.io/blog) ---" := by
    decide
  have hhead : out.head?
      = some (OutLine.marker
          "--- SCRAPING interviewing_blog (https://interviewing.io/blog) ---") := by
    rw [← hf1, hhead0, hstr]
  refine ⟨heq, ?_, ?_, ?_⟩
  · rw [heq]
    exact List.mem_append_right _ (List.mem_singleton.mpr rfl)
  · rw [heq]
    cases out with
    | nil => simp at hhead
    | cons a as =>
        have ha : a = OutLine.marker
            "--- SCRAPING interviewing_blog (https://interviewing.io/blog) ---" := by
          simpa using hhead
        simp [ha]
  · rw [heq]
    exact ⟨OutLine.marker ("PDF folder not found: " ++ PDF_FOLDER),
           List.mem_append_right _ (List.mem_singleton.mpr rfl), rfl⟩

/-- Witness for C10 on a fixture where the first source emits one
record, the other sources none, and the PDF folder is absent: one
stream carries markers, the record, and the diagnostic, interleaved. -/
theorem C10_witness :
    scrape_all webOneItem pdfLibOk false [] idsA
      = ([OutLine.marker
            "--- SCRAPING interviewing_blog (https://interviewing.io/blog) ---",
          OutLine.record (HtmlScraper.buildRecord
            (Source.scraper
              ⟨"interviewing_blog", "https://interviewing.io/blog", "h1", "a"⟩)
            "A0" "http://i" noSoup),
          OutLine.marker
            "--- SCRAPING company_guides (https://interviewing.io/topics#companies) ---",
          OutLine.marker
            "--- SCRAPING interview_guides (https://interviewing.io/learn#interview-guides) ---",
          OutLine.marker
            "--- SCRAPING nil_dsablog (https://nilmamano.com/blog/category/dsa) ---",
          OutLine.marker "PDF folder not found: data/pdfs"], none)
    ∧ OutLine.marker ("PDF folder not found: " ++ PDF_FOLDER)
        ∈ (scrape_all webOneItem pdfLibOk false [] idsA).1
    ∧ (scrape_all webOneItem pdfLibOk false [] idsA).1.head?
        = some (OutLine.marker
            "--- SCRAPING interviewing_blog (https://interviewing.io/blog) ---") := by
  have h := C10_theorem webOneItem pdfLibOk [] idsA
    [OutLine.marker
        "--- SCRAPING interviewing_blog (https://interviewing.io/blog) ---",
     OutLine.record (HtmlScraper.buildRecord
       (Source.scraper
         ⟨"interviewing_blog", "https://interviewing.io/blog", "h1", "a"⟩)
       "A0" "http://i" noSoup),
     OutLine.marker
       "--- SCRAPING company_guides (https://interviewing.io/topics#companies) ---",
     OutLine.marker
       "--- SCRAPING interview_guides (https://interviewing.io/learn#interview-guides) ---",
     OutLine.marker
       "--- SCRAPING nil_dsablog (https://nilmamano.com/blog/category/dsa) ---"]
    1 (by decide)
  exact ⟨h.1.trans (by decide), h.2.1, h.2.2.1⟩
